import Mathlib

/-!
Verification of the authentication session & token lifecycle subsystem
(`crates/remote/src/db/auth.rs`, `crates/remote/src/cache.rs`,
`crates/remote/src/auth/middleware.rs`).

The durable store is modelled as an explicit state (`DB`): each SQL statement
of the source becomes a pure state transformer that performs exactly the
row updates selected by the predicate of the statement.  A whole SQL statement (or a
whole transaction, for `rotate_tokens` / `revoke_all_user_sessions`) is one
atomic step, matching the concurrency model of the source, where each such
statement executes atomically inside Postgres.  Transient infrastructure
failures (`sqlx::Error`, surfaced as `AuthSessionError::Database`) are
modelled by an explicit `fault` flag on each fallible operation.

Timestamps are integers (seconds); `NOW()` is an explicit `now` parameter;
the 1-hour INTERVAL is 3600 and Duration days 365 is 31536000.
-/

/-- Mirrors `AuthSessionError` in `db/auth.rs` (the `Database` payload,
a `sqlx::Error`, is dropped). -/
inductive AuthSessionError where
  | NotFound
  | TokenReuseDetected
  | TokenRevoked
  | TokenExpired
  | InvalidToken
  | Database
deriving DecidableEq, Repr

/-- Mirrors `AuthSession` in `db/auth.rs`.  `Uuid` columns become `Nat`,
`DateTime<Utc>` columns become `Int` (seconds). -/
structure AuthSession where
  id : Nat
  user_id : Nat
  created_at : Int
  last_used_at : Option Int
  revoked_at : Option Int
  refresh_token_id : Option Nat
  refresh_token_issued_at : Option Int
deriving DecidableEq, Repr

/-- A row of the `revoked_refresh_tokens` table
(`token_id`, `user_id`, `revoked_reason`). -/
structure RevokedRefreshToken where
  token_id : Nat
  user_id : Nat
  revoked_reason : String
deriving DecidableEq, Repr

/-- Modelled from the spec: the `User` identity record of `db/users.rs`
(not under `src/`): id, optional username, email. -/
structure User where
  id : Nat
  username : Option String
  email : String
deriving DecidableEq, Repr

/-- Modelled from the spec: `IdentityError` of `db/identity_errors.rs`
(not under `src/`); the middleware distinguishes `NotFound`, `Database`
and a catch-all of further variants, modelled by `Other`. -/
inductive IdentityError where
  | NotFound
  | Database
  | Other
deriving DecidableEq, Repr

/-- The durable store: the `auth_sessions` and `revoked_refresh_tokens`
tables.  `revoked_refresh_tokens` has primary key `token_id`
(`ON CONFLICT (token_id)` in the source). -/
structure DB where
  sessions : List AuthSession
  revoked_tokens : List RevokedRefreshToken
deriving DecidableEq, Repr

/-- Constant `MAX_SESSION_INACTIVITY_DURATION`, the Duration of 365 days,
in seconds. -/
def MAX_SESSION_INACTIVITY_DURATION : Int := 365 * 86400

/-- Method `AuthSession::last_activity_at`: `last_used_at.unwrap_or(created_at)`. -/
def last_activity_at (s : AuthSession) : Int :=
  s.last_used_at.getD s.created_at

/-- Method `AuthSession::inactivity_duration`:
`now.signed_duration_since(last_activity_at)`. -/
def inactivity_duration (s : AuthSession) (now : Int) : Int :=
  now - last_activity_at s

/-- Method `AuthSessionRepository::get`: `SELECT ... FROM auth_sessions WHERE id = $1`,
then `.ok_or(NotFound)`.  A `fault` models a `sqlx::Error` from the pool. -/
def get_session (fault : Bool) (db : DB) (session_id : Nat) :
    Except AuthSessionError AuthSession :=
  if fault then .error .Database
  else
    match db.sessions.find? (fun s => s.id == session_id) with
    | some s => .ok s
    | none => .error .NotFound

/-- The row transformer of the single UPDATE in `AuthSessionRepository::touch`:
`SET last_used_at = NOW() WHERE id = $1 AND (last_used_at IS NULL OR
last_used_at < NOW() - the 1-hour INTERVAL)`. -/
def touchRow (now : Int) (session_id : Nat) (s : AuthSession) : AuthSession :=
  if s.id = session_id ∧
      (s.last_used_at = none ∨ ∃ u, s.last_used_at = some u ∧ u < now - 3600)
  then { s with last_used_at := some now }
  else s

/-- Method `AuthSessionRepository::touch`: executes the conditional UPDATE and
returns `Ok(())` regardless of how many rows matched. -/
def touch (fault : Bool) (db : DB) (session_id : Nat) (now : Int) :
    DB × Except AuthSessionError Unit :=
  if fault then (db, .error .Database)
  else ({ db with sessions := db.sessions.map (touchRow now session_id) }, .ok ())

/-- Statement `INSERT INTO revoked_refresh_tokens ... ON CONFLICT (token_id) DO NOTHING`:
appends a row unless a row with the same `token_id` is already present. -/
def insertRevokedToken (led : List RevokedRefreshToken) (tid uid : Nat)
    (reason : String) : List RevokedRefreshToken :=
  if led.any (fun r => r.token_id == tid) then led
  else led ++ [⟨tid, uid, reason⟩]

/-- The row transformer of the conditional UPDATE in `rotate_tokens`:
`SET refresh_token_id = $3, refresh_token_issued_at = NOW()
WHERE id = $1 AND refresh_token_id = $2`. -/
def rotateRow (now : Int) (session_id old_id new_id : Nat) (s : AuthSession) :
    AuthSession :=
  if s.id = session_id ∧ s.refresh_token_id = some old_id
  then { s with refresh_token_id := some new_id,
                refresh_token_issued_at := some now }
  else s

/-- Method `AuthSessionRepository::rotate_tokens`: one transaction.  The conditional
UPDATE is the linearization point; zero rows matched means rollback and
`TokenReuseDetected`; otherwise the old id is inserted into the revocation
ledger (reason `token_rotation`, idempotently) and the transaction commits.
A `fault` models a `sqlx::Error` anywhere in the transaction (state
unchanged, as an aborted transaction leaves no effects). -/
def rotate_tokens (fault : Bool) (db : DB) (session_id old_id new_id : Nat)
    (now : Int) : DB × Except AuthSessionError Unit :=
  if fault then (db, .error .Database)
  else
    match db.sessions.find?
        (fun s => s.id == session_id && s.refresh_token_id == some old_id) with
    | none => (db, .error .TokenReuseDetected)
    | some row =>
        ({ sessions := db.sessions.map (rotateRow now session_id old_id new_id),
           revoked_tokens :=
             insertRevokedToken db.revoked_tokens old_id row.user_id
               "token_rotation" },
         .ok ())

/-- Method `AuthSessionRepository::revoke`: `UPDATE auth_sessions SET revoked_at =
NOW() WHERE id = $1` — note: no `revoked_at IS NULL` guard in the source. -/
def revoke (fault : Bool) (db : DB) (session_id : Nat) (now : Int) :
    DB × Except AuthSessionError Unit :=
  if fault then (db, .error .Database)
  else
    ({ db with sessions := db.sessions.map (fun s =>
         if s.id = session_id then { s with revoked_at := some now } else s) },
     .ok ())

/-- Method `AuthSessionRepository::revoke_all_user_sessions`: one transaction.
First `INSERT INTO revoked_refresh_tokens SELECT refresh_token_id, user_id,
the reuse_of_revoked_token reason FROM auth_sessions WHERE user_id = $1 AND
refresh_token_id IS NOT NULL ON CONFLICT DO NOTHING`; then
`UPDATE auth_sessions SET revoked_at = NOW() WHERE user_id = $1 AND
revoked_at IS NULL`, returning `rows_affected`. -/
def revoke_all_user_sessions (fault : Bool) (db : DB) (user_id : Nat)
    (now : Int) : DB × Except AuthSessionError Int :=
  if fault then (db, .error .Database)
  else
    let ledger := db.sessions.foldl (fun led s =>
        if s.user_id = user_id then
          match s.refresh_token_id with
          | some tid => insertRevokedToken led tid s.user_id
              "reuse_of_revoked_token"
          | none => led
        else led) db.revoked_tokens
    let affected :=
      (db.sessions.filter
        (fun s => s.user_id == user_id && s.revoked_at == none)).length
    ({ sessions := db.sessions.map (fun s =>
         if s.user_id = user_id ∧ s.revoked_at = none
         then { s with revoked_at := some now } else s),
       revoked_tokens := ledger },
     .ok (affected : Int))

/-- Method `AuthSessionRepository::is_refresh_token_revoked`:
`SELECT EXISTS(SELECT 1 FROM revoked_refresh_tokens WHERE token_id = $1)`. -/
def is_refresh_token_revoked (db : DB) (token_id : Nat) : Bool :=
  db.revoked_tokens.any (fun r => r.token_id == token_id)

/-- Modelled from the spec: `UserRepository::fetch_user` of `db/users.rs`
(not under `src/`): point lookup by id in the user directory, `NotFound`
when absent; a `fault` models a database error. -/
def fetch_user (fault : Bool) (users : List User) (user_id : Nat) :
    Except IdentityError User :=
  if fault then .error .Database
  else
    match users.find? (fun u => u.id == user_id) with
    | some u => .ok u
    | none => .error .NotFound

/-!
### Serialization codec

Modelled from the spec: `serde_json` (an external library) serializes
`AuthSession` and `User` records to strings for the string-keyed cache.
The model codec below is an arbitrary injective encoding into `String`
with a computable partial inverse; what the claims need from it is only
what the spec requires of serde_json — a total serializer, a deserializer
that inverts it, and the possibility of arbitrary non-decoding blobs.
-/

/-- Decodes a decimal digit character. -/
def charDigit (c : Char) : Option Nat :=
  if 48 ≤ c.toNat ∧ c.toNat ≤ 57 then some (c.toNat - 48) else none

/-- Encodes a decimal digit as a character. -/
def digitChar (d : Nat) : Char := Char.ofNat (48 + d)

/-- Little-endian decimal digits of `n`, with explicit fuel
(structural recursion; `fuel ≥ n` suffices). -/
def natChars : Nat → Nat → List Char
  | _, 0 => []
  | 0, _ + 1 => []
  | fuel + 1, n + 1 => digitChar ((n + 1) % 10) :: natChars fuel ((n + 1) / 10)

/-- Canonical digit string of `n` (little-endian; empty for 0). -/
def encNat (n : Nat) : List Char := natChars n n

/-- Parses a whole digit string back to a number (little-endian). -/
def parseNatLE : List Char → Option Nat
  | [] => some 0
  | c :: cs =>
    match charDigit c, parseNatLE cs with
    | some d, some m => some (10 * m + d)
    | _, _ => none

/-- Splits off the part of the list before the first field separator. -/
def splitField : List Char → List Char × List Char
  | [] => ([], [])
  | c :: cs =>
    if c = '|' then ([], cs)
    else ((splitField cs).1.cons c, (splitField cs).2)

/-- A terminated number token: digits followed by the field separator. -/
def encNatT (n : Nat) : List Char := encNat n ++ ['|']

/-- Parses a terminated number token, returning the leftover input. -/
def parseNatT (cs : List Char) : Option (Nat × List Char) :=
  match parseNatLE (splitField cs).1 with
  | some n => some (n, (splitField cs).2)
  | none => none

/-- A signed number token: a sign character and a magnitude token. -/
def encIntT (i : Int) : List Char :=
  if 0 ≤ i then 'p' :: encNatT i.toNat else 'm' :: encNatT (-i).toNat

/-- Parses a signed number token. -/
def parseIntT (cs : List Char) : Option (Int × List Char) :=
  match cs with
  | 'p' :: rest => (parseNatT rest).map (fun p => ((p.1 : Int), p.2))
  | 'm' :: rest => (parseNatT rest).map (fun p => (-(p.1 : Int), p.2))
  | _ => none

/-- An optional signed number token, tagged n / s. -/
def encOptIntT : Option Int → List Char
  | none => ['n']
  | some v => 's' :: encIntT v

/-- Parses an optional signed number token. -/
def parseOptIntT (cs : List Char) : Option (Option Int × List Char) :=
  match cs with
  | 'n' :: rest => some (none, rest)
  | 's' :: rest => (parseIntT rest).map (fun p => (some p.1, p.2))
  | _ => none

/-- An optional number token, tagged n / s. -/
def encOptNatT : Option Nat → List Char
  | none => ['n']
  | some v => 's' :: encNatT v

/-- Parses an optional number token. -/
def parseOptNatT (cs : List Char) : Option (Option Nat × List Char) :=
  match cs with
  | 'n' :: rest => some (none, rest)
  | 's' :: rest => (parseNatT rest).map (fun p => (some p.1, p.2))
  | _ => none

/-- A length-prefixed string token (the content may contain any character). -/
def encStrT (s : String) : List Char := encNatT s.data.length ++ s.data

/-- Parses a length-prefixed string token. -/
def parseStrT (cs : List Char) : Option (String × List Char) :=
  match parseNatT cs with
  | some (len, r) =>
      if len ≤ r.length then some (⟨r.take len⟩, r.drop len) else none
  | none => none

/-- An optional length-prefixed string token, tagged n / s. -/
def encOptStrT : Option String → List Char
  | none => ['n']
  | some v => 's' :: encStrT v

/-- Parses an optional length-prefixed string token. -/
def parseOptStrT (cs : List Char) : Option (Option String × List Char) :=
  match cs with
  | 'n' :: rest => some (none, rest)
  | 's' :: rest => (parseStrT rest).map (fun p => (some p.1, p.2))
  | _ => none

/-- Serializes an `AuthSession` (the model of serde_json to_string). -/
def serializeSession (s : AuthSession) : String :=
  ⟨encNatT s.id ++ encNatT s.user_id ++ encIntT s.created_at ++
   encOptIntT s.last_used_at ++ encOptIntT s.revoked_at ++
   encOptNatT s.refresh_token_id ++ encOptIntT s.refresh_token_issued_at⟩

/-- Deserializes an `AuthSession` (the model of serde_json from_str);
fails on any string that is not a complete well-formed record. -/
def deserializeSession (str : String) : Option AuthSession :=
  match parseNatT str.data with
  | none => none
  | some (id, r1) =>
    match parseNatT r1 with
    | none => none
    | some (uid, r2) =>
      match parseIntT r2 with
      | none => none
      | some (ca, r3) =>
        match parseOptIntT r3 with
        | none => none
        | some (lu, r4) =>
          match parseOptIntT r4 with
          | none => none
          | some (rv, r5) =>
            match parseOptNatT r5 with
            | none => none
            | some (rt, r6) =>
              match parseOptIntT r6 with
              | some (rti, []) => some ⟨id, uid, ca, lu, rv, rt, rti⟩
              | _ => none

/-- Serializes a `User` (the model of serde_json to_string). -/
def serializeUser (u : User) : String :=
  ⟨encNatT u.id ++ encOptStrT u.username ++ encStrT u.email⟩

/-- Deserializes a `User` (the model of serde_json from_str). -/
def deserializeUser (str : String) : Option User :=
  match parseNatT str.data with
  | none => none
  | some (id, r1) =>
    match parseOptStrT r1 with
    | none => none
    | some (username, r2) =>
      match parseStrT r2 with
      | some (email, []) => some ⟨id, username, email⟩
      | _ => none

/-!
### Cache layer (`cache.rs`, `state.rs`)

`StringCache` is a moka `Cache<String, String>`; the model is an
association list where `insert` overwrites, `invalidate` removes, and
`get` looks a key up.  TTL / capacity eviction only removes entries, so
any reachable cache state of the source is a state of this model.
-/

/-- The string-keyed string-valued cache of `state.rs`. -/
abbrev StringCache := List (String × String)

/-- moka `get`. -/
def cacheGet (c : StringCache) (k : String) : Option String :=
  (List.find? (fun p => p.1 == k) c).map (fun p => p.2)

/-- moka `insert` (overwrites any binding of the key). -/
def cacheInsert (c : StringCache) (k v : String) : StringCache :=
  (k, v) :: List.filter (fun p => !(p.1 == k)) c

/-- moka `invalidate`. -/
def cacheInvalidate (c : StringCache) (k : String) : StringCache :=
  List.filter (fun p => !(p.1 == k)) c

/-- Function `user_cache_key`: USER_CACHE_PREFIX followed by the id. -/
def user_cache_key (user_id : Nat) : String :=
  ⟨('u' :: 's' :: 'e' :: 'r' :: ':' :: []) ++ encNat user_id⟩

/-- Function `session_cache_key`: SESSION_CACHE_PREFIX followed by the id. -/
def session_cache_key (session_id : Nat) : String :=
  ⟨('s' :: 'e' :: 's' :: 's' :: 'i' :: 'o' :: 'n' :: ':' :: []) ++
   encNat session_id⟩

/-- Function `invalidate_session_cache`. -/
def invalidate_session_cache (cache : StringCache) (session_id : Nat) :
    StringCache :=
  cacheInvalidate cache (session_cache_key session_id)

/-- Function `invalidate_user_cache`. -/
def invalidate_user_cache (cache : StringCache) (user_id : Nat) :
    StringCache :=
  cacheInvalidate cache (user_cache_key user_id)

/-- Function `get_session_cached`: cache-first session lookup.  On a hit that
deserializes, return it; on a hit that fails to deserialize, invalidate
the entry and fall through; on a miss, load from the durable store,
propagating its error, and on success cache the serialized record.
Returns the updated cache alongside the result. -/
def get_session_cached (fault : Bool) (db : DB) (cache : StringCache)
    (session_id : Nat) :
    StringCache × Except AuthSessionError AuthSession :=
  let key := session_cache_key session_id
  let step2 := fun (c : StringCache) =>
    match get_session fault db session_id with
    | .ok session => (cacheInsert c key (serializeSession session), .ok session)
    | .error e => (c, .error e)
  match cacheGet cache key with
  | some cached =>
    match deserializeSession cached with
    | some session => (cache, .ok session)
    | none => step2 (cacheInvalidate cache key)
  | none => step2 cache

/-- Function `get_user_cached`: cache-first user lookup, symmetric to
`get_session_cached`. -/
def get_user_cached (fault : Bool) (users : List User) (cache : StringCache)
    (user_id : Nat) : StringCache × Except IdentityError User :=
  let key := user_cache_key user_id
  let step2 := fun (c : StringCache) =>
    match fetch_user fault users user_id with
    | .ok user => (cacheInsert c key (serializeUser user), .ok user)
    | .error e => (c, .error e)
  match cacheGet cache key with
  | some cached =>
    match deserializeUser cached with
    | some user => (cache, .ok user)
    | none => step2 (cacheInvalidate cache key)
  | none => step2 cache

/-!
### AuthGate (`auth/middleware.rs::require_session`)
-/

/-- The claims a successful `decode_access_token` yields. -/
structure AccessClaims where
  user_id : Nat
  session_id : Nat
  expires_at : Int
deriving DecidableEq, Repr

/-- Modelled from the spec: the bearer credential of a request, as seen
through `JwtService::decode_access_token` (the TokenVerifier collaborator,
not under `src/`): absent, failing to decode, or decoding to claims. -/
inductive TokenInput where
  | missing
  | malformed
  | valid (claims : AccessClaims)
deriving DecidableEq, Repr

/-- Which infrastructure calls fail during one gate pass (each models a
`sqlx::Error` on the corresponding statement). -/
structure Faults where
  sessionDb : Bool
  userDb : Bool
  revokeDb : Bool
  touchDb : Bool
deriving DecidableEq, Repr

/-- No infrastructure failures. -/
def noFaults : Faults := ⟨false, false, false, false⟩

/-- The full mutable state a gate pass touches: the durable store, the
user directory and the shared cache. -/
structure World where
  db : DB
  users : List User
  cache : StringCache
deriving DecidableEq

/-- The terminal outcome of one `require_session` pass:
`accepted` carries the `RequestContext` fields (resolved user, session id,
access-token expiry); `unauthorized` is StatusCode UNAUTHORIZED;
`serverError` is StatusCode INTERNAL_SERVER_ERROR. -/
inductive GateResult where
  | accepted (user : User) (session_id : Nat) (expires_at : Int)
  | unauthorized
  | serverError
deriving DecidableEq, Repr

/-- Function `require_session`: one gate pass, following `middleware.rs` line by
line: bearer extraction, token decode, cached session lookup with its
error mapping, revocation check, inactivity check (revoke + cache
invalidation + reject), cached user lookup with its error mapping,
request-context construction, and the fire-and-forget touch. -/
def require_session (f : Faults) (w : World) (tok : TokenInput) (now : Int) :
    World × GateResult :=
  match tok with
  | .missing => (w, .unauthorized)
  | .malformed => (w, .unauthorized)
  | .valid claims =>
    let r1 := get_session_cached f.sessionDb w.db w.cache claims.session_id
    let w1 : World := { w with cache := r1.1 }
    match r1.2 with
    | .error .NotFound => (w1, .unauthorized)
    | .error .Database => (w1, .serverError)
    | .error _ => (w1, .unauthorized)
    | .ok session =>
      if session.revoked_at.isSome then (w1, .unauthorized)
      else if inactivity_duration session now > MAX_SESSION_INACTIVITY_DURATION
      then
        let r2 := revoke f.revokeDb w1.db session.id now
        let cache2 := invalidate_session_cache w1.cache session.id
        ({ w1 with db := r2.1, cache := cache2 }, .unauthorized)
      else
        let r3 := get_user_cached f.userDb w1.users w1.cache claims.user_id
        let w2 : World := { w1 with cache := r3.1 }
        match r3.2 with
        | .error .NotFound => (w2, .unauthorized)
        | .error .Database => (w2, .serverError)
        | .error .Other => (w2, .serverError)
        | .ok user =>
          let r4 := touch f.touchDb w2.db session.id now
          ({ w2 with db := r4.1 },
           .accepted user session.id claims.expires_at)

/-!
### Concrete sample states used by witnesses and counterexamples
-/

/-- A live session of user 7 holding refresh credential 11. -/
def liveSession : AuthSession := ⟨1, 7, 0, none, none, some 11, none⟩

/-- Sample user 7. -/
def sampleUser : User := ⟨7, none, "u@example.test"⟩

/-- A store with the single live session. -/
def dbLive : DB := ⟨[liveSession], []⟩

/-- Session 1 of user 7, revoked at time 5. -/
def dbRevokedAt5 : DB := ⟨[⟨1, 7, 0, none, some 5, none, none⟩], []⟩

/-- Session 1 of user 7, revoked at time 50 in the durable store. -/
def dbRevokedAt50 : DB := ⟨[⟨1, 7, 0, none, some 50, none, none⟩], []⟩

/-- The stale (pre-revocation) copy of session 1: not revoked. -/
def staleSession : AuthSession := ⟨1, 7, 0, none, none, none, none⟩

/-- A world whose cache still holds the pre-revocation serialized copy of
session 1 while the durable store already has it revoked. -/
def staleCacheWorld : World :=
  ⟨dbRevokedAt50, [sampleUser],
   [(session_cache_key 1, serializeSession staleSession)]⟩

/-- The same durable state with an empty (cold) cache. -/
def coldCacheWorld : World := ⟨dbRevokedAt50, [sampleUser], []⟩

/-- Claims decoding to user 7, session 1, expiry 999. -/
def sampleClaims : AccessClaims := ⟨7, 1, 999⟩

/-- A world with one live never-touched session created at time 0. -/
def neverTouchedWorld : World := ⟨⟨[staleSession], []⟩, [sampleUser], []⟩

/-- Duration of 366 days, in seconds. -/
def days366 : Int := 366 * 86400

/-- Store for the revoke-all scenario: user 7 has three live sessions,
two of which hold live refresh credentials 11 and 12. -/
def dbThreeLive : DB :=
  ⟨[⟨1, 7, 0, none, none, some 11, none⟩,
    ⟨2, 7, 0, none, none, some 12, none⟩,
    ⟨3, 7, 0, none, none, none, none⟩], []⟩

/-- A world whose cache holds a non-deserializable blob for session 1 and
for user 7. -/
def corruptCacheWorld : World :=
  ⟨dbLive, [sampleUser],
   [(session_cache_key 1, "corrupt"), (user_cache_key 7, "junk")]⟩

/-- The sequence of outcomes of a run of `rotate_tokens` calls that all
present the same `old_id` against one session, each call seeing the state
the previous call left behind. -/
def rotateResults (db : DB) (session_id old_id : Nat) (news : List Nat)
    (now : Int) : List (Except AuthSessionError Unit) :=
  match news with
  | [] => []
  | n :: rest =>
    (rotate_tokens false db session_id old_id n now).2 ::
      rotateResults (rotate_tokens false db session_id old_id n now).1
        session_id old_id rest now

/-- Whether a rotation outcome is a success. -/
def rotOk : Except AuthSessionError Unit → Bool
  | .ok _ => true
  | .error _ => false

/-!
## Helper lemmas: codec round-trip
-/

theorem charDigit_digitChar (d : Nat) (hd : d < 10) :
    charDigit (digitChar d) = some d := by
  interval_cases d <;> rfl

theorem natChars_mem (fuel n : Nat) (c : Char) (hc : c ∈ natChars fuel n) :
    ∃ d, d < 10 ∧ c = digitChar d := by
  induction fuel generalizing n with
  | zero =>
    cases n with
    | zero => simp [natChars] at hc
    | succ m => simp [natChars] at hc
  | succ f ih =>
    cases n with
    | zero => simp [natChars] at hc
    | succ m =>
      simp only [natChars, List.mem_cons] at hc
      rcases hc with h | h
      · exact ⟨(m + 1) % 10, Nat.mod_lt _ (by norm_num), h⟩
      · exact ih _ h

theorem bar_not_mem_natChars (fuel n : Nat) : '|' ∉ natChars fuel n := by
  intro h
  obtain ⟨d, hd, hc⟩ := natChars_mem fuel n _ h
  interval_cases d <;> exact absurd hc (by decide)

theorem bar_not_mem_encNat (n : Nat) : '|' ∉ encNat n :=
  bar_not_mem_natChars n n

theorem parseNatLE_natChars (fuel n : Nat) (h : n ≤ fuel) :
    parseNatLE (natChars fuel n) = some n := by
  induction fuel generalizing n with
  | zero =>
    have : n = 0 := Nat.le_zero.mp h
    subst this
    rfl
  | succ f ih =>
    cases n with
    | zero => rfl
    | succ m =>
      have hdiv : (m + 1) / 10 ≤ f := by
        have := Nat.div_lt_self (Nat.succ_pos m) (by norm_num : 1 < 10)
        omega
      simp only [natChars, parseNatLE,
        charDigit_digitChar _ (Nat.mod_lt _ (by norm_num : (0:Nat) < 10)),
        ih _ hdiv]
      exact congrArg some (Nat.div_add_mod (m + 1) 10)

theorem parseNatLE_encNat (n : Nat) : parseNatLE (encNat n) = some n :=
  parseNatLE_natChars n n le_rfl

theorem splitField_append (xs rest : List Char) (h : '|' ∉ xs) :
    splitField (xs ++ '|' :: rest) = (xs, rest) := by
  induction xs with
  | nil => rfl
  | cons c cs ih =>
    have hc : ¬ c = '|' := by
      intro hc; exact h (hc ▸ List.mem_cons_self c cs)
    have hcs : '|' ∉ cs := fun hm => h (List.mem_cons_of_mem c hm)
    simp [splitField, hc, ih hcs]

theorem parseNatT_enc (n : Nat) (rest : List Char) :
    parseNatT (encNatT n ++ rest) = some (n, rest) := by
  have h1 : encNatT n ++ rest = encNat n ++ '|' :: rest := by
    simp [encNatT]
  rw [parseNatT, h1, splitField_append (encNat n) rest (bar_not_mem_encNat n)]
  simp [parseNatLE_encNat]

theorem parseIntT_enc (i : Int) (rest : List Char) :
    parseIntT (encIntT i ++ rest) = some (i, rest) := by
  by_cases h : 0 ≤ i
  · simp [encIntT, h, parseIntT, parseNatT_enc, Int.toNat_of_nonneg h]
  · have h2 : 0 ≤ -i := by omega
    simp [encIntT, h, parseIntT, parseNatT_enc]
    omega

theorem parseOptIntT_enc (v : Option Int) (rest : List Char) :
    parseOptIntT (encOptIntT v ++ rest) = some (v, rest) := by
  cases v with
  | none => rfl
  | some i => simp [encOptIntT, parseOptIntT, parseIntT_enc]

theorem parseOptNatT_enc (v : Option Nat) (rest : List Char) :
    parseOptNatT (encOptNatT v ++ rest) = some (v, rest) := by
  cases v with
  | none => rfl
  | some n => simp [encOptNatT, parseOptNatT, parseNatT_enc]

theorem parseStrT_enc (s : String) (rest : List Char) :
    parseStrT (encStrT s ++ rest) = some (s, rest) := by
  have h1 : encStrT s ++ rest = encNatT s.data.length ++ (s.data ++ rest) := by
    simp [encStrT]
  rw [parseStrT, h1, parseNatT_enc]
  have hlen : s.data.length ≤ (s.data ++ rest).length := by
    simp [List.length_append]
  simp only [hlen, if_pos]
  rw [List.take_left, List.drop_left]

theorem parseOptStrT_enc (v : Option String) (rest : List Char) :
    parseOptStrT (encOptStrT v ++ rest) = some (v, rest) := by
  cases v with
  | none => rfl
  | some s => simp [encOptStrT, parseOptStrT, parseStrT_enc]

theorem parseOptIntT_enc_nil (v : Option Int) :
    parseOptIntT (encOptIntT v) = some (v, []) := by
  simpa using parseOptIntT_enc v []

theorem parseStrT_enc_nil (s : String) :
    parseStrT (encStrT s) = some (s, []) := by
  simpa using parseStrT_enc s []

theorem deserialize_serializeSession (s : AuthSession) :
    deserializeSession (serializeSession s) = some s := by
  obtain ⟨id, uid, ca, lu, rv, rt, rti⟩ := s
  simp [deserializeSession, serializeSession, List.append_assoc,
    parseNatT_enc, parseIntT_enc, parseOptIntT_enc, parseOptNatT_enc,
    parseOptIntT_enc_nil]

theorem deserialize_serializeUser (u : User) :
    deserializeUser (serializeUser u) = some u := by
  obtain ⟨id, username, email⟩ := u
  simp [deserializeUser, serializeUser, List.append_assoc,
    parseNatT_enc, parseOptStrT_enc, parseStrT_enc_nil]

/-!
## Helper lemmas: cache and rotation
-/

theorem cacheGet_cacheInvalidate (c : StringCache) (k : String) :
    cacheGet (cacheInvalidate c k) k = none := by
  have hfind : List.find? (fun p => p.1 == k) (cacheInvalidate c k) = none := by
    rw [List.find?_eq_none]
    intro x hx
    have hmem : x ∈ List.filter (fun p => !(p.1 == k)) c := by
      simpa [cacheInvalidate] using hx
    have := List.of_mem_filter hmem
    simpa using this
  simp [cacheGet, hfind]

theorem cacheGet_cacheInsert (c : StringCache) (k v : String) :
    cacheGet (cacheInsert c k v) k = some v := by
  simp [cacheGet, cacheInsert, List.find?_cons]

theorem rotate_tokens_fail_of_absent (db : DB) (sid old nid : Nat) (now : Int)
    (h : ∀ s ∈ db.sessions, ¬ (s.id = sid ∧ s.refresh_token_id = some old)) :
    rotate_tokens false db sid old nid now =
      (db, .error .TokenReuseDetected) := by
  have hfind : db.sessions.find?
      (fun s => s.id == sid && s.refresh_token_id == some old) = none := by
    rw [List.find?_eq_none]
    intro x hx
    simpa using h x hx
  simp [rotate_tokens, hfind]

theorem rotate_tokens_ok_or_reuse (db : DB) (sid old nid : Nat) (now : Int) :
    (rotate_tokens false db sid old nid now).2 = .ok () ∨
      (rotate_tokens false db sid old nid now).2 =
        .error .TokenReuseDetected := by
  rcases hfind : db.sessions.find?
      (fun s => s.id == sid && s.refresh_token_id == some old) with _ | row
  · right; simp [rotate_tokens, hfind]
  · left; simp [rotate_tokens, hfind]

theorem rotate_tokens_fail_unchanged (db : DB) (sid old nid : Nat) (now : Int)
    (e : AuthSessionError)
    (he : (rotate_tokens false db sid old nid now).2 = .error e) :
    (rotate_tokens false db sid old nid now).1 = db := by
  rcases hfind : db.sessions.find?
      (fun s => s.id == sid && s.refresh_token_id == some old) with _ | row
  · simp [rotate_tokens, hfind]
  · simp [rotate_tokens, hfind] at he

theorem rotate_tokens_success_clears (db : DB) (sid old nid : Nat) (now : Int)
    (hne : nid ≠ old)
    (hok : (rotate_tokens false db sid old nid now).2 = .ok ()) :
    ∀ s ∈ (rotate_tokens false db sid old nid now).1.sessions,
      ¬ (s.id = sid ∧ s.refresh_token_id = some old) := by
  intro s hs
  rcases hfind : db.sessions.find?
      (fun x => x.id == sid && x.refresh_token_id == some old) with _ | row
  · simp [rotate_tokens, hfind] at hok
  · simp only [rotate_tokens, hfind, if_neg, Bool.false_eq_true,
      not_false_iff] at hs
    obtain ⟨t, ht, rfl⟩ := List.mem_map.mp hs
    by_cases hcond : t.id = sid ∧ t.refresh_token_id = some old
    · intro hcontra
      have : (rotateRow now sid old nid t).refresh_token_id = some nid := by
        simp [rotateRow, hcond]
      rw [this] at hcontra
      exact hne (Option.some_injective _ hcontra.2)
    · intro hcontra
      have : rotateRow now sid old nid t = t := by
        simp [rotateRow, hcond]
      rw [this] at hcontra
      exact hcond hcontra

theorem rotateResults_all_fail (sid old : Nat) (news : List Nat) (now : Int) :
    ∀ db : DB,
      (∀ s ∈ db.sessions, ¬ (s.id = sid ∧ s.refresh_token_id = some old)) →
      ∀ r ∈ rotateResults db sid old news now,
        r = .error .TokenReuseDetected := by
  induction news with
  | nil =>
    intro db _ r hr
    simp [rotateResults] at hr
  | cons n rest ih =>
    intro db hdb r hr
    have heq := rotate_tokens_fail_of_absent db sid old n now hdb
    simp only [rotateResults, heq, List.mem_cons] at hr
    rcases hr with rfl | hr
    · rfl
    · exact ih db hdb r hr

/-- C1: for any sequence of `rotate_tokens` calls against one session that
all present the same `old` refresh-credential id (each with a fresh `new`
id), at most one call succeeds; every other call leaves the store
untouched (rollback) and fails with `TokenReuseDetected`, whatever the
order of the calls.  Since every call is a single atomic transaction whose
conditional update reads current state, any concurrent interleaving is
some such sequence. -/
theorem rotate_tokens_at_most_one_success (db : DB) (sid old : Nat)
    (news : List Nat) (now : Int) (hnews : ∀ n ∈ news, n ≠ old) :
    (rotateResults db sid old news now).countP rotOk ≤ 1 ∧
      ∀ r ∈ rotateResults db sid old news now,
        r = .ok () ∨ r = .error .TokenReuseDetected := by
  constructor
  · induction news generalizing db with
    | nil => simp [rotateResults]
    | cons n rest ih =>
      have hnrest : ∀ m ∈ rest, m ≠ old := fun m hm =>
        hnews m (List.mem_cons_of_mem n hm)
      rcases rotate_tokens_ok_or_reuse db sid old n now with hok | herr
      · have hclear := rotate_tokens_success_clears db sid old n now
          (hnews n (List.mem_cons_self n rest)) hok
        have hall := rotateResults_all_fail sid old rest now
          (rotate_tokens false db sid old n now).1 hclear
        have hzero : (rotateResults (rotate_tokens false db sid old n now).1
            sid old rest now).countP rotOk = 0 := by
          rw [List.countP_eq_zero]
          intro r hr
          rw [hall r hr]
          simp [rotOk]
        simp only [rotateResults, hok]
        rw [List.countP_cons_of_pos _ _ (by simp [rotOk])]
        omega
      · have hdb := rotate_tokens_fail_unchanged db sid old n now _ herr
        simp only [rotateResults, herr, hdb]
        rw [List.countP_cons_of_neg _ _ (by simp [rotOk])]
        exact ih db hnrest
  · induction news generalizing db with
    | nil =>
      intro r hr
      simp [rotateResults] at hr
    | cons n rest ih =>
      intro r hr
      have hnrest : ∀ m ∈ rest, m ≠ old := fun m hm =>
        hnews m (List.mem_cons_of_mem n hm)
      simp only [rotateResults, List.mem_cons] at hr
      rcases hr with rfl | hr
      · exact rotate_tokens_ok_or_reuse db sid old n now
      · exact ih (rotate_tokens false db sid old n now).1 hnrest r hr

/-- C1 witness: two rotation attempts both presenting the live credential
11 of session 1: at most one succeeds. -/
theorem rotate_tokens_at_most_one_success_witness :
    (rotateResults dbLive 1 11 [21, 22] 5).countP rotOk ≤ 1 ∧
      ∀ r ∈ rotateResults dbLive 1 11 [21, 22] 5,
        r = .ok () ∨ r = .error .TokenReuseDetected :=
  rotate_tokens_at_most_one_success dbLive 1 11 [21, 22] 5 (by decide)

/-- C2 counterexample: session 1 is already revoked at time 5; calling
`revoke` again at time 10 succeeds and overwrites the stored `revoked_at`
with 10, so the second call is not a value-preserving no-op. -/
theorem revoke_overwrites_counterexample :
    dbRevokedAt5.sessions.map (fun s => s.revoked_at) = [some 5] ∧
    (revoke false dbRevokedAt5 1 10).1.sessions.map (fun s => s.revoked_at) =
      [some 10] ∧
    (revoke false dbRevokedAt5 1 10).2 = .ok () := ⟨rfl, rfl, rfl⟩

/-- C2 amended: `revoke(session_id)` unconditionally sets `revoked_at` to
now on every session with that id (the source UPDATE has no
`revoked_at IS NULL` guard, so an earlier revocation timestamp is
overwritten rather than left unchanged), leaves every other session
untouched, and never returns an error; in particular a revoked session
stays revoked. -/
theorem revoke_sets_unconditionally (db : DB) (sid : Nat) (now : Int) :
    (revoke false db sid now).2 = .ok () ∧
    (∀ s ∈ (revoke false db sid now).1.sessions,
        s.id = sid → s.revoked_at = some now) ∧
    (∀ s ∈ db.sessions, s.id ≠ sid →
        s ∈ (revoke false db sid now).1.sessions) := by
  refine ⟨rfl, ?_, ?_⟩
  · intro s hs hid
    simp only [revoke, if_neg, Bool.false_eq_true, not_false_iff,
      List.mem_map] at hs
    obtain ⟨t, ht, rfl⟩ := hs
    by_cases hcond : t.id = sid
    · simp [hcond]
    · rw [if_neg hcond] at hid
      exact absurd hid hcond
  · intro s hs hid
    have hmem := List.mem_map_of_mem
      (fun t => if t.id = sid then { t with revoked_at := some now } else t)
      hs
    simp only [if_neg hid] at hmem
    simpa [revoke] using hmem

/-- C2 amended witness: re-revoking session 1 (already revoked at 5) at
time 10 returns Ok and the stored row now carries revoked_at = 10. -/
theorem revoke_sets_unconditionally_witness :
    (revoke false dbRevokedAt5 1 10).2 = .ok () ∧
    (⟨1, 7, 0, none, some 10, none, none⟩ : AuthSession).revoked_at =
      some 10 :=
  ⟨(revoke_sets_unconditionally dbRevokedAt5 1 10).1,
   (revoke_sets_unconditionally dbRevokedAt5 1 10).2.1
     ⟨1, 7, 0, none, some 10, none, none⟩ (by decide) rfl⟩

/-- C3 counterexample: session 1 has `revoked_at` set in the durable store,
the access token is valid, yet the gate pass is Accepted, because the
session lookup is served from a cache entry written before the revocation
(neither `revoke` nor `revoke_all_user_sessions` invalidates the cache,
and the entry can stay live for the full TTL window). -/
theorem revoked_session_accepted_from_stale_cache :
    (∀ s ∈ staleCacheWorld.db.sessions, s.revoked_at = some 50) ∧
    (require_session noFaults staleCacheWorld (.valid sampleClaims) 100).2 =
      .accepted sampleUser 1 999 := by decide

/-- C3 amended: once `revoked_at` is set in the durable store, every gate
pass whose session lookup is actually served from the durable store (a
cache miss on the session key) rejects with Unauthorized regardless of
credential validity; a stale cache entry written before the revocation
can still be accepted until it is invalidated or expires. -/
theorem revoked_session_rejected_on_cache_miss (f : Faults) (w : World)
    (c : AccessClaims) (now t : Int) (s : AuthSession)
    (hf : f.sessionDb = false)
    (hmiss : cacheGet w.cache (session_cache_key c.session_id) = none)
    (hfind : w.db.sessions.find? (fun x => x.id == c.session_id) = some s)
    (hrev : s.revoked_at = some t) :
    (require_session f w (.valid c) now).2 = .unauthorized := by
  simp [require_session, get_session_cached, hmiss, get_session, hf, hfind,
    hrev]

/-- C3 amended witness: the same revoked durable state checked through a
cold cache is rejected. -/
theorem revoked_session_rejected_on_cache_miss_witness :
    (require_session noFaults coldCacheWorld (.valid sampleClaims) 100).2 =
      .unauthorized :=
  revoked_session_rejected_on_cache_miss noFaults coldCacheWorld sampleClaims
    100 50 ⟨1, 7, 0, none, some 50, none, none⟩ rfl (by decide) (by decide)
    rfl

/-- C4: `touch` is a single conditional update: when every row of the
session already carries a `last_used_at` within the 1-hour window, the
whole call performs no write at all (the store is returned unchanged);
a row of the session whose `last_used_at` is null or more than 1 hour in
the past is set to `now` (strictly later than the old value); a row
within the window is left unchanged. -/
theorem touch_coalesced_conditional_update (db : DB) (sid : Nat)
    (now : Int) :
    ((∀ s ∈ db.sessions, s.id = sid →
        ∃ u, s.last_used_at = some u ∧ ¬ u < now - 3600) →
      touch false db sid now = (db, .ok ())) ∧
    (∀ s ∈ db.sessions, s.id = sid →
      (s.last_used_at = none →
        touchRow now sid s = { s with last_used_at := some now }) ∧
      (∀ u, s.last_used_at = some u → u < now - 3600 →
        touchRow now sid s = { s with last_used_at := some now } ∧
          u < now) ∧
      (∀ u, s.last_used_at = some u → ¬ u < now - 3600 →
        touchRow now sid s = s)) := by
  constructor
  · intro hfresh
    have hmap : db.sessions.map (touchRow now sid) = db.sessions := by
      rw [show db.sessions.map (touchRow now sid) =
            db.sessions.map id from
          List.map_congr_left ?_, List.map_id]
      intro s hmem
      show touchRow now sid s = s
      by_cases hid : s.id = sid
      · obtain ⟨u, hu, hnot⟩ := hfresh s hmem hid
        have hcond : ¬ (s.id = sid ∧ (s.last_used_at = none ∨
            ∃ v, s.last_used_at = some v ∧ v < now - 3600)) := by
          rintro ⟨-, hnone | ⟨v, hv, hvlt⟩⟩
          · rw [hu] at hnone; exact Option.noConfusion hnone
          · rw [hu] at hv
            exact hnot (Option.some_injective _ hv ▸ hvlt)
        rw [touchRow, if_neg hcond]
      · have hcond : ¬ (s.id = sid ∧ (s.last_used_at = none ∨
            ∃ v, s.last_used_at = some v ∧ v < now - 3600)) := by
          rintro ⟨h, -⟩; exact hid h
        rw [touchRow, if_neg hcond]
    simp [touch, hmap]
  · intro s _ hid
    refine ⟨?_, ?_, ?_⟩
    · intro hnone
      rw [touchRow, if_pos ⟨hid, Or.inl hnone⟩]
    · intro u hu hlt
      exact ⟨by rw [touchRow, if_pos ⟨hid, Or.inr ⟨u, hu, hlt⟩⟩], by omega⟩
    · intro u hu hnot
      have hcond : ¬ (s.id = sid ∧ (s.last_used_at = none ∨
          ∃ v, s.last_used_at = some v ∧ v < now - 3600)) := by
        rintro ⟨-, hnone | ⟨v, hv, hvlt⟩⟩
        · rw [hu] at hnone; exact Option.noConfusion hnone
        · rw [hu] at hv
          exact hnot (Option.some_injective _ hv ▸ hvlt)
      rw [touchRow, if_neg hcond]

/-- C4 witness: session 1 was touched at time 100; a second touch at time
200 (inside the 1-hour window) performs no write and succeeds. -/
theorem touch_coalesced_conditional_update_witness :
    touch false ⟨[⟨1, 7, 0, some 100, none, none, none⟩], []⟩ 1 200 =
      (⟨[⟨1, 7, 0, some 100, none, none, none⟩], []⟩, .ok ()) :=
  (touch_coalesced_conditional_update
      ⟨[⟨1, 7, 0, some 100, none, none, none⟩], []⟩ 1 200).1
    (by
      intro s hs hid
      simp only [List.mem_singleton] at hs
      subst hs
      exact ⟨100, rfl, by decide⟩)

/-- C10: `touch` returns Ok even when the conditional update matches zero
rows — in particular when no session with the given id exists the store is
returned unchanged and the result is still Ok, so a caller cannot detect
a missing session through `touch`; and no row other than the session with
the given id is ever modified. -/
theorem touch_missing_session_ok (db : DB) (sid : Nat) (now : Int) :
    ((touch false db sid now).2 = .ok ()) ∧
    ((∀ s ∈ db.sessions, s.id ≠ sid) →
      touch false db sid now = (db, .ok ())) ∧
    (∀ s ∈ db.sessions, s.id ≠ sid → touchRow now sid s = s) := by
  refine ⟨rfl, ?_, ?_⟩
  · intro hnone
    have hmap : db.sessions.map (touchRow now sid) = db.sessions := by
      rw [show db.sessions.map (touchRow now sid) =
            db.sessions.map id from
          List.map_congr_left ?_, List.map_id]
      intro s hmem
      show touchRow now sid s = s
      rw [touchRow, if_neg (fun h => hnone s hmem h.1)]
    simp [touch, hmap]
  · intro s hs hid
    rw [touchRow, if_neg (fun h => hid h.1)]

/-- C10 witness: touching absent session 9 leaves the one-session store
unchanged and returns Ok. -/
theorem touch_missing_session_ok_witness :
    touch false dbLive 9 50 = (dbLive, .ok ()) :=
  (touch_missing_session_ok dbLive 9 50).2.1
    (by intro s hs; simp only [dbLive, List.mem_singleton] at hs;
        subst hs; decide)

/-- C9: a `rotate_tokens` call whose conditional update matches zero rows
fails with `TokenReuseDetected` and rolls back (store unchanged) — both
when no session with the given id exists at all and when the session
exists but its stored `refresh_token_id` is null; and `rotate_tokens`
never returns `NotFound` (a fault yields `Database`), so the error value
cannot distinguish a missing session from a superseded credential. -/
theorem rotate_tokens_zero_rows_reuse_detected (fault : Bool) (db : DB)
    (sid old nid : Nat) (now : Int) :
    ((∀ s ∈ db.sessions, ¬ (s.id = sid ∧ s.refresh_token_id = some old)) →
      rotate_tokens false db sid old nid now =
        (db, .error .TokenReuseDetected)) ∧
    ((∀ s ∈ db.sessions, s.id ≠ sid) →
      rotate_tokens false db sid old nid now =
        (db, .error .TokenReuseDetected)) ∧
    ((∀ s ∈ db.sessions, s.id = sid → s.refresh_token_id = none) →
      rotate_tokens false db sid old nid now =
        (db, .error .TokenReuseDetected)) ∧
    (rotate_tokens fault db sid old nid now).2 ≠ .error .NotFound := by
  refine ⟨rotate_tokens_fail_of_absent db sid old nid now, ?_, ?_, ?_⟩
  · intro h
    exact rotate_tokens_fail_of_absent db sid old nid now
      (fun s hs hc => h s hs hc.1)
  · intro h
    refine rotate_tokens_fail_of_absent db sid old nid now
      (fun s hs hc => ?_)
    have := h s hs hc.1
    rw [this] at hc
    exact Option.noConfusion hc.2
  · cases fault
    · rcases rotate_tokens_ok_or_reuse db sid old nid now with h | h <;>
        simp [h]
    · simp [rotate_tokens]

/-- C9 witness: rotating against an empty store (no such session) is
reuse-detected, not not-found. -/
theorem rotate_tokens_zero_rows_reuse_detected_witness :
    rotate_tokens false ⟨[], []⟩ 1 11 21 0 =
      (⟨[], []⟩, .error .TokenReuseDetected) ∧
    (rotate_tokens false ⟨[], []⟩ 1 11 21 0).2 ≠ .error .NotFound :=
  ⟨(rotate_tokens_zero_rows_reuse_detected false ⟨[], []⟩ 1 11 21 0).2.1
     (by intro s hs; simp at hs),
   (rotate_tokens_zero_rows_reuse_detected false ⟨[], []⟩ 1 11 21 0).2.2.2⟩

theorem revoke_false_sets (db : DB) (sid : Nat) (now : Int) :
    ∀ x ∈ (revoke false db sid now).1.sessions,
      x.id = sid → x.revoked_at = some now := by
  intro x hx hid
  simp only [revoke, Bool.false_eq_true, if_false, List.mem_map] at hx
  obtain ⟨t, ht, rfl⟩ := hx
  by_cases hcond : t.id = sid
  · simp [hcond]
  · rw [if_neg hcond] at hid
    exact absurd hid hcond

/-- C5: a gate pass for an unrevoked session whose inactivity (now minus
last_used_at if present, else now minus created_at) exceeds 365 days
revokes the session in the durable store, leaves no cache entry for it,
and is rejected with Unauthorized; when the revoke write itself fails
the pass is still rejected with Unauthorized. -/
theorem inactivity_expiry_auto_revokes (f : Faults) (w : World)
    (c : AccessClaims) (now : Int) (s : AuthSession)
    (hf : f.sessionDb = false)
    (hmiss : cacheGet w.cache (session_cache_key c.session_id) = none)
    (hfind : w.db.sessions.find? (fun x => x.id == c.session_id) = some s)
    (halive : s.revoked_at = none)
    (hinactive :
      inactivity_duration s now > MAX_SESSION_INACTIVITY_DURATION) :
    (require_session f w (.valid c) now).2 = .unauthorized ∧
    cacheGet (require_session f w (.valid c) now).1.cache
      (session_cache_key s.id) = none ∧
    (f.revokeDb = false →
      ∀ x ∈ (require_session f w (.valid c) now).1.db.sessions,
        x.id = s.id → x.revoked_at = some now) := by
  have hcached : get_session_cached f.sessionDb w.db w.cache c.session_id =
      (cacheInsert w.cache (session_cache_key c.session_id)
        (serializeSession s), .ok s) := by
    rw [hf]
    simp [get_session_cached, hmiss, get_session, hfind]
  have hgate : require_session f w (.valid c) now =
      ({ db := (revoke f.revokeDb w.db s.id now).1,
         users := w.users,
         cache := invalidate_session_cache
           (cacheInsert w.cache (session_cache_key c.session_id)
             (serializeSession s)) s.id },
       .unauthorized) := by
    simp [require_session, hcached, halive, hinactive]
  refine ⟨by rw [hgate], ?_, ?_⟩
  · rw [hgate]
    exact cacheGet_cacheInvalidate _ _
  · intro hrd
    rw [hgate]
    rw [hrd]
    exact revoke_false_sets w.db s.id now

theorem insertRevokedToken_self (led : List RevokedRefreshToken)
    (tid uid : Nat) (reason : String) :
    (insertRevokedToken led tid uid reason).any
      (fun r => r.token_id == tid) = true := by
  by_cases h : led.any (fun r => r.token_id == tid)
  · simp only [insertRevokedToken, h, if_true]
  · simp [insertRevokedToken, h, List.any_append]

theorem insertRevokedToken_mono (led : List RevokedRefreshToken)
    (tid uid : Nat) (reason : String) (t : Nat)
    (h : led.any (fun r => r.token_id == t) = true) :
    (insertRevokedToken led tid uid reason).any
      (fun r => r.token_id == t) = true := by
  by_cases hc : led.any (fun r => r.token_id == tid) <;>
    simp [insertRevokedToken, hc, List.any_append, h]

theorem insertRevokedToken_nodup (led : List RevokedRefreshToken)
    (tid uid : Nat) (reason : String)
    (h : (led.map (fun r => r.token_id)).Nodup) :
    ((insertRevokedToken led tid uid reason).map
      (fun r => r.token_id)).Nodup := by
  by_cases hc : led.any (fun r => r.token_id == tid)
  · simpa [insertRevokedToken, hc] using h
  · have habs : ∀ r ∈ led, r.token_id ≠ tid := by
      intro r hr
      have hfalse : led.any (fun r => r.token_id == tid) = false :=
        Bool.eq_false_iff.mpr hc
      have := List.any_eq_false.mp hfalse r hr
      simpa using this
    simp only [insertRevokedToken, hc, if_false, Bool.false_eq_true,
      List.map_append, List.map_cons, List.map_nil]
    rw [List.nodup_append]
    refine ⟨h, List.nodup_singleton _, ?_⟩
    intro x hx hx2
    simp only [List.mem_singleton] at hx2
    obtain ⟨r, hr, rfl⟩ := List.mem_map.mp hx
    exact habs r hr hx2

theorem ledger_foldl_mono (uid : Nat) (l : List AuthSession) (t : Nat) :
    ∀ led : List RevokedRefreshToken,
      led.any (fun r => r.token_id == t) = true →
      (l.foldl (fun led s =>
        if s.user_id = uid then
          match s.refresh_token_id with
          | some tid => insertRevokedToken led tid s.user_id
              "reuse_of_revoked_token"
          | none => led
        else led) led).any (fun r => r.token_id == t) = true := by
  induction l with
  | nil => intro led h; simpa using h
  | cons s rest ih =>
    intro led h
    rw [List.foldl_cons]
    apply ih
    by_cases hc : s.user_id = uid
    · rcases hr : s.refresh_token_id with _ | tid
      · simpa [hc, hr] using h
      · simpa [hc, hr] using insertRevokedToken_mono led tid s.user_id
          "reuse_of_revoked_token" t h
    · simpa [hc] using h

theorem ledger_foldl_inserts (uid : Nat) (l : List AuthSession) (t : Nat) :
    ∀ led : List RevokedRefreshToken,
      (∃ s ∈ l, s.user_id = uid ∧ s.refresh_token_id = some t) →
      (l.foldl (fun led s =>
        if s.user_id = uid then
          match s.refresh_token_id with
          | some tid => insertRevokedToken led tid s.user_id
              "reuse_of_revoked_token"
          | none => led
        else led) led).any (fun r => r.token_id == t) = true := by
  induction l with
  | nil =>
    rintro led ⟨s, hs, -⟩
    simp at hs
  | cons s rest ih =>
    rintro led ⟨x, hx, hxu, hxt⟩
    rw [List.foldl_cons]
    rcases List.mem_cons.mp hx with rfl | hx2
    · apply ledger_foldl_mono
      simpa [hxu, hxt] using insertRevokedToken_self led t x.user_id
        "reuse_of_revoked_token"
    · exact ih _ ⟨x, hx2, hxu, hxt⟩

theorem ledger_foldl_nodup (uid : Nat) (l : List AuthSession) :
    ∀ led : List RevokedRefreshToken,
      (led.map (fun r => r.token_id)).Nodup →
      ((l.foldl (fun led s =>
        if s.user_id = uid then
          match s.refresh_token_id with
          | some tid => insertRevokedToken led tid s.user_id
              "reuse_of_revoked_token"
          | none => led
        else led) led).map (fun r => r.token_id)).Nodup := by
  induction l with
  | nil => intro led h; simpa using h
  | cons s rest ih =>
    intro led h
    rw [List.foldl_cons]
    apply ih
    by_cases hc : s.user_id = uid
    · rcases hr : s.refresh_token_id with _ | tid
      · simpa [hc, hr] using h
      · simpa [hc, hr] using insertRevokedToken_nodup led tid s.user_id
          "reuse_of_revoked_token" h
    · simpa [hc] using h

/-- C6: `revoke_all_user_sessions(user_id)` in one transaction returns
exactly the number of sessions of that user whose `revoked_at` was null
(the rows the UPDATE affects); every such session now carries
`revoked_at = now` while every other row is unchanged; afterwards no
session of the user is unrevoked; the ledger gains a record for every
refresh-credential id held by a session of the user (so
`is_refresh_token_revoked` answers true for each), idempotently — at most
one ledger record per token id is ever kept. -/
theorem revoke_all_user_sessions_spec (db : DB) (uid : Nat) (now : Int) :
    ((revoke_all_user_sessions false db uid now).2 =
      .ok ((db.sessions.filter
        (fun s => s.user_id == uid && s.revoked_at == none)).length : Int)) ∧
    (∀ s ∈ db.sessions, s.user_id = uid → s.revoked_at = none →
      { s with revoked_at := some now } ∈
        (revoke_all_user_sessions false db uid now).1.sessions) ∧
    (∀ s ∈ db.sessions, ¬ (s.user_id = uid ∧ s.revoked_at = none) →
      s ∈ (revoke_all_user_sessions false db uid now).1.sessions) ∧
    (∀ s ∈ (revoke_all_user_sessions false db uid now).1.sessions,
      s.user_id = uid → s.revoked_at ≠ none) ∧
    (∀ s ∈ db.sessions, s.user_id = uid →
      ∀ tid, s.refresh_token_id = some tid →
        is_refresh_token_revoked
          (revoke_all_user_sessions false db uid now).1 tid = true) ∧
    ((db.revoked_tokens.map (fun r => r.token_id)).Nodup →
      ((revoke_all_user_sessions false db uid now).1.revoked_tokens.map
        (fun r => r.token_id)).Nodup) := by
  have hval : revoke_all_user_sessions false db uid now =
      ({ sessions := db.sessions.map (fun s =>
           if s.user_id = uid ∧ s.revoked_at = none
           then { s with revoked_at := some now } else s),
         revoked_tokens := db.sessions.foldl (fun led s =>
           if s.user_id = uid then
             match s.refresh_token_id with
             | some tid => insertRevokedToken led tid s.user_id
                 "reuse_of_revoked_token"
             | none => led
           else led) db.revoked_tokens },
       .ok ((db.sessions.filter
         (fun s => s.user_id == uid && s.revoked_at == none)).length :
           Int)) := rfl
  refine ⟨by rw [hval], ?_, ?_, ?_, ?_, ?_⟩
  · intro s hs huid hnone
    rw [hval]
    exact List.mem_map.mpr ⟨s, hs, if_pos ⟨huid, hnone⟩⟩
  · intro s hs hcond
    rw [hval]
    exact List.mem_map.mpr ⟨s, hs, if_neg hcond⟩
  · intro s hs huid
    rw [hval] at hs
    simp only [List.mem_map] at hs
    obtain ⟨t, ht, rfl⟩ := hs
    by_cases hcond : t.user_id = uid ∧ t.revoked_at = none
    · simp [if_pos hcond]
    · rw [if_neg hcond] at huid ⊢
      intro hnone
      exact hcond ⟨huid, hnone⟩
  · intro s hs huid tid htid
    rw [hval]
    show (List.foldl _ db.revoked_tokens db.sessions).any
      (fun r => r.token_id == tid) = true
    exact ledger_foldl_inserts uid db.sessions tid db.revoked_tokens
      ⟨s, hs, huid, htid⟩
  · intro h
    rw [hval]
    exact ledger_foldl_nodup uid db.sessions db.revoked_tokens h

/-- C6 witness: a user with 3 live sessions, two of which hold live
refresh credentials 11 and 12: the returned count is 3 and both
credential ids are afterwards reported revoked. -/
theorem revoke_all_user_sessions_spec_witness :
    (revoke_all_user_sessions false dbThreeLive 7 100).2 = .ok 3 ∧
    is_refresh_token_revoked
      (revoke_all_user_sessions false dbThreeLive 7 100).1 11 = true ∧
    is_refresh_token_revoked
      (revoke_all_user_sessions false dbThreeLive 7 100).1 12 = true :=
  ⟨by
     rw [(revoke_all_user_sessions_spec dbThreeLive 7 100).1]
     rfl,
   (revoke_all_user_sessions_spec dbThreeLive 7 100).2.2.2.2.1
     ⟨1, 7, 0, none, none, some 11, none⟩ (by decide) rfl 11 rfl,
   (revoke_all_user_sessions_spec dbThreeLive 7 100).2.2.2.2.1
     ⟨2, 7, 0, none, none, some 12, none⟩ (by decide) rfl 12 rfl⟩

/-- C5 witness (Scenario A): a session created at time 0 and never
touched, checked 366 days later: rejected, revoked in the store, gone
from the cache. -/
theorem inactivity_expiry_auto_revokes_witness :
    (require_session noFaults neverTouchedWorld (.valid sampleClaims)
        days366).2 = .unauthorized ∧
    cacheGet (require_session noFaults neverTouchedWorld
        (.valid sampleClaims) days366).1.cache (session_cache_key 1) =
      none ∧
    (∀ x ∈ (require_session noFaults neverTouchedWorld
        (.valid sampleClaims) days366).1.db.sessions,
      x.id = 1 → x.revoked_at = some days366) :=
  ⟨(inactivity_expiry_auto_revokes noFaults neverTouchedWorld sampleClaims
      days366 staleSession rfl rfl (by decide) rfl (by decide)).1,
   (inactivity_expiry_auto_revokes noFaults neverTouchedWorld sampleClaims
      days366 staleSession rfl rfl (by decide) rfl (by decide)).2.1,
   (inactivity_expiry_auto_revokes noFaults neverTouchedWorld sampleClaims
      days366 staleSession rfl rfl (by decide) rfl (by decide)).2.2 rfl⟩

/-- C7: when the cache holds a blob for a session id that fails to
deserialize, `get_session_cached` never surfaces the deserialization
failure: it returns exactly what the durable store returns (the record,
or NotFound / a database error, unchanged), and afterwards the corrupted
entry is gone — the key is either absent (store failure) or maps to the
fresh serialization of the durable record, which deserializes to that
record.  The same holds symmetrically for `get_user_cached`. -/
theorem cache_corrupt_blob_falls_back :
    (∀ (fault : Bool) (db : DB) (cache : StringCache) (sid : Nat)
        (blob : String),
      cacheGet cache (session_cache_key sid) = some blob →
      deserializeSession blob = none →
      ((get_session_cached fault db cache sid).2 =
          get_session fault db sid ∧
        (∀ e, get_session fault db sid = .error e →
          cacheGet (get_session_cached fault db cache sid).1
            (session_cache_key sid) = none) ∧
        (∀ s, get_session fault db sid = .ok s →
          cacheGet (get_session_cached fault db cache sid).1
            (session_cache_key sid) = some (serializeSession s) ∧
          deserializeSession (serializeSession s) = some s))) ∧
    (∀ (fault : Bool) (users : List User) (cache : StringCache) (uid : Nat)
        (blob : String),
      cacheGet cache (user_cache_key uid) = some blob →
      deserializeUser blob = none →
      ((get_user_cached fault users cache uid).2 =
          fetch_user fault users uid ∧
        (∀ e, fetch_user fault users uid = .error e →
          cacheGet (get_user_cached fault users cache uid).1
            (user_cache_key uid) = none) ∧
        (∀ u, fetch_user fault users uid = .ok u →
          cacheGet (get_user_cached fault users cache uid).1
            (user_cache_key uid) = some (serializeUser u) ∧
          deserializeUser (serializeUser u) = some u))) := by
  constructor
  · intro fault db cache sid blob hhit hbad
    rcases hstore : get_session fault db sid with e | s
    · have hres : get_session_cached fault db cache sid =
          (cacheInvalidate cache (session_cache_key sid), .error e) := by
        simp [get_session_cached, hhit, hbad, hstore]
      refine ⟨by rw [hres], ?_, ?_⟩
      · intro e2 _
        rw [hres]
        exact cacheGet_cacheInvalidate _ _
      · intro s hs
        exact Except.noConfusion hs
    · have hres : get_session_cached fault db cache sid =
          (cacheInsert (cacheInvalidate cache (session_cache_key sid))
            (session_cache_key sid) (serializeSession s), .ok s) := by
        simp [get_session_cached, hhit, hbad, hstore]
      refine ⟨by rw [hres], ?_, ?_⟩
      · intro e he
        exact Except.noConfusion he
      · intro s2 hs2
        cases hs2
        exact ⟨by rw [hres]; exact cacheGet_cacheInsert _ _ _,
          deserialize_serializeSession s⟩
  · intro fault users cache uid blob hhit hbad
    rcases hstore : fetch_user fault users uid with e | u
    · have hres : get_user_cached fault users cache uid =
          (cacheInvalidate cache (user_cache_key uid), .error e) := by
        simp [get_user_cached, hhit, hbad, hstore]
      refine ⟨by rw [hres], ?_, ?_⟩
      · intro e2 _
        rw [hres]
        exact cacheGet_cacheInvalidate _ _
      · intro u2 hu
        exact Except.noConfusion hu
    · have hres : get_user_cached fault users cache uid =
          (cacheInsert (cacheInvalidate cache (user_cache_key uid))
            (user_cache_key uid) (serializeUser u), .ok u) := by
        simp [get_user_cached, hhit, hbad, hstore]
      refine ⟨by rw [hres], ?_, ?_⟩
      · intro e he
        exact Except.noConfusion he
      · intro u2 hu2
        cases hu2
        exact ⟨by rw [hres]; exact cacheGet_cacheInsert _ _ _,
          deserialize_serializeUser u⟩

/-- C7 witness (Scenario D): the cache holds the non-deserializable blob
for session 1 and user 7; both cached lookups return the durable records
and the keys now map to the fresh serializations. -/
theorem cache_corrupt_blob_falls_back_witness :
    (get_session_cached false corruptCacheWorld.db corruptCacheWorld.cache
        1).2 = get_session false corruptCacheWorld.db 1 ∧
    cacheGet (get_session_cached false corruptCacheWorld.db
        corruptCacheWorld.cache 1).1 (session_cache_key 1) =
      some (serializeSession liveSession) ∧
    (get_user_cached false corruptCacheWorld.users corruptCacheWorld.cache
        7).2 = fetch_user false corruptCacheWorld.users 7 ∧
    cacheGet (get_user_cached false corruptCacheWorld.users
        corruptCacheWorld.cache 7).1 (user_cache_key 7) =
      some (serializeUser sampleUser) :=
  ⟨(cache_corrupt_blob_falls_back.1 false corruptCacheWorld.db
      corruptCacheWorld.cache 1 "corrupt" (by decide) (by decide)).1,
   ((cache_corrupt_blob_falls_back.1 false corruptCacheWorld.db
      corruptCacheWorld.cache 1 "corrupt" (by decide) (by decide)).2.2
        liveSession rfl).1,
   (cache_corrupt_blob_falls_back.2 false corruptCacheWorld.users
      corruptCacheWorld.cache 7 "junk" (by decide) (by decide)).1,
   ((cache_corrupt_blob_falls_back.2 false corruptCacheWorld.users
      corruptCacheWorld.cache 7 "junk" (by decide) (by decide)).2.2
        sampleUser rfl).1⟩

theorem session_key_ne_user_key (a b : Nat) :
    session_cache_key a ≠ user_cache_key b := by
  intro h
  have h2 := congrArg (fun s => s.data.head?) h
  simp only [session_cache_key, user_cache_key, List.cons_append,
    List.head?_cons] at h2
  exact absurd (Option.some_injective _ h2) (by decide)

theorem find?_filter_ne (c : StringCache) (k k2 : String) (h : k ≠ k2) :
    List.find? (fun p => p.1 == k2)
      (List.filter (fun p => !(p.1 == k)) c) =
    List.find? (fun p => p.1 == k2) c := by
  induction c with
  | nil => rfl
  | cons p ps ih =>
    by_cases hp : p.1 = k2
    · have hpk : (p.1 == k) = false := by
        rw [hp]
        exact beq_eq_false_iff_ne.mpr (Ne.symm h)
      rw [List.filter_cons_of_pos (by simp [hpk]),
          List.find?_cons_of_pos _ (by simpa using hp),
          List.find?_cons_of_pos _ (by simpa using hp)]
    · by_cases hpk : p.1 = k
      · rw [List.filter_cons_of_neg (by simp [hpk]),
            List.find?_cons_of_neg _ (by simpa using hp), ih]
      · rw [List.filter_cons_of_pos (by simp [hpk]),
            List.find?_cons_of_neg _ (by simpa using hp),
            List.find?_cons_of_neg _ (by simpa using hp), ih]

theorem cacheGet_cacheInsert_ne (c : StringCache) (k k2 v : String)
    (h : k ≠ k2) : cacheGet (cacheInsert c k v) k2 = cacheGet c k2 := by
  simp only [cacheGet, cacheInsert]
  rw [List.find?_cons_of_neg, find?_filter_ne c k k2 h]
  simp [h]

/-- C8: in every gate pass the internal error taxonomy collapses to two
outcomes exactly as the middleware maps it: a database error during the
session or the user lookup ends in ServerError (never Unauthorized),
while a missing bearer credential, a failed token decode, an unknown
session, a revoked session, an inactivity-expired session, and an
unknown user all end in the single generic Unauthorized outcome. -/
theorem gate_error_collapse :
    (∀ (f : Faults) (w : World) (now : Int),
      (require_session f w .missing now).2 = .unauthorized) ∧
    (∀ (f : Faults) (w : World) (now : Int),
      (require_session f w .malformed now).2 = .unauthorized) ∧
    (∀ (f : Faults) (w : World) (c : AccessClaims) (now : Int),
      f.sessionDb = true →
      cacheGet w.cache (session_cache_key c.session_id) = none →
      (require_session f w (.valid c) now).2 = .serverError) ∧
    (∀ (f : Faults) (w : World) (c : AccessClaims) (now : Int),
      f.sessionDb = false →
      cacheGet w.cache (session_cache_key c.session_id) = none →
      w.db.sessions.find? (fun x => x.id == c.session_id) = none →
      (require_session f w (.valid c) now).2 = .unauthorized) ∧
    (∀ (f : Faults) (w : World) (c : AccessClaims) (now t : Int)
        (s : AuthSession),
      f.sessionDb = false →
      cacheGet w.cache (session_cache_key c.session_id) = none →
      w.db.sessions.find? (fun x => x.id == c.session_id) = some s →
      s.revoked_at = some t →
      (require_session f w (.valid c) now).2 = .unauthorized) ∧
    (∀ (f : Faults) (w : World) (c : AccessClaims) (now : Int)
        (s : AuthSession),
      f.sessionDb = false →
      cacheGet w.cache (session_cache_key c.session_id) = none →
      w.db.sessions.find? (fun x => x.id == c.session_id) = some s →
      s.revoked_at = none →
      inactivity_duration s now > MAX_SESSION_INACTIVITY_DURATION →
      (require_session f w (.valid c) now).2 = .unauthorized) ∧
    (∀ (f : Faults) (w : World) (c : AccessClaims) (now : Int)
        (s : AuthSession),
      f.sessionDb = false → f.userDb = true →
      cacheGet w.cache (session_cache_key c.session_id) = none →
      cacheGet w.cache (user_cache_key c.user_id) = none →
      w.db.sessions.find? (fun x => x.id == c.session_id) = some s →
      s.revoked_at = none →
      ¬ inactivity_duration s now > MAX_SESSION_INACTIVITY_DURATION →
      (require_session f w (.valid c) now).2 = .serverError) ∧
    (∀ (f : Faults) (w : World) (c : AccessClaims) (now : Int)
        (s : AuthSession),
      f.sessionDb = false → f.userDb = false →
      cacheGet w.cache (session_cache_key c.session_id) = none →
      cacheGet w.cache (user_cache_key c.user_id) = none →
      w.db.sessions.find? (fun x => x.id == c.session_id) = some s →
      s.revoked_at = none →
      ¬ inactivity_duration s now > MAX_SESSION_INACTIVITY_DURATION →
      w.users.find? (fun u => u.id == c.user_id) = none →
      (require_session f w (.valid c) now).2 = .unauthorized) := by
  refine ⟨fun f w now => rfl, fun f w now => rfl, ?_, ?_, ?_, ?_, ?_, ?_⟩
  · intro f w c now hf hmiss
    have hcached : get_session_cached f.sessionDb w.db w.cache
        c.session_id = (w.cache, .error .Database) := by
      rw [hf]
      simp [get_session_cached, hmiss, get_session]
    simp [require_session, hcached]
  · intro f w c now hf hmiss hfind
    have hcached : get_session_cached f.sessionDb w.db w.cache
        c.session_id = (w.cache, .error .NotFound) := by
      rw [hf]
      simp [get_session_cached, hmiss, get_session, hfind]
    simp [require_session, hcached]
  · intro f w c now t s hf hmiss hfind hrev
    have hcached : get_session_cached f.sessionDb w.db w.cache
        c.session_id =
        (cacheInsert w.cache (session_cache_key c.session_id)
          (serializeSession s), .ok s) := by
      rw [hf]
      simp [get_session_cached, hmiss, get_session, hfind]
    simp [require_session, hcached, hrev]
  · intro f w c now s hf hmiss hfind halive hinactive
    have hcached : get_session_cached f.sessionDb w.db w.cache
        c.session_id =
        (cacheInsert w.cache (session_cache_key c.session_id)
          (serializeSession s), .ok s) := by
      rw [hf]
      simp [get_session_cached, hmiss, get_session, hfind]
    simp [require_session, hcached, halive, hinactive]
  · intro f w c now s hf hfu hmiss hmissu hfind halive hactive
    have hcached : get_session_cached f.sessionDb w.db w.cache
        c.session_id =
        (cacheInsert w.cache (session_cache_key c.session_id)
          (serializeSession s), .ok s) := by
      rw [hf]
      simp [get_session_cached, hmiss, get_session, hfind]
    have hucache : cacheGet (cacheInsert w.cache
        (session_cache_key c.session_id) (serializeSession s))
        (user_cache_key c.user_id) = none := by
      rw [cacheGet_cacheInsert_ne _ _ _ _ (session_key_ne_user_key _ _)]
      exact hmissu
    have huser : get_user_cached f.userDb w.users
        (cacheInsert w.cache (session_cache_key c.session_id)
          (serializeSession s)) c.user_id =
        (cacheInsert w.cache (session_cache_key c.session_id)
          (serializeSession s), .error .Database) := by
      rw [hfu]
      simp [get_user_cached, hucache, fetch_user]
    simp [require_session, hcached, halive, hactive, huser]
  · intro f w c now s hf hfu hmiss hmissu hfind halive hactive hufind
    have hcached : get_session_cached f.sessionDb w.db w.cache
        c.session_id =
        (cacheInsert w.cache (session_cache_key c.session_id)
          (serializeSession s), .ok s) := by
      rw [hf]
      simp [get_session_cached, hmiss, get_session, hfind]
    have hucache : cacheGet (cacheInsert w.cache
        (session_cache_key c.session_id) (serializeSession s))
        (user_cache_key c.user_id) = none := by
      rw [cacheGet_cacheInsert_ne _ _ _ _ (session_key_ne_user_key _ _)]
      exact hmissu
    have huser : get_user_cached f.userDb w.users
        (cacheInsert w.cache (session_cache_key c.session_id)
          (serializeSession s)) c.user_id =
        (cacheInsert w.cache (session_cache_key c.session_id)
          (serializeSession s), .error .NotFound) := by
      rw [hfu]
      simp [get_user_cached, hucache, fetch_user, hufind]
    simp [require_session, hcached, halive, hactive, huser]

/-- C8 witness: concrete passes — missing bearer rejects with
Unauthorized; a session-lookup database fault gives ServerError; a
user-lookup database fault gives ServerError; an unknown user gives
Unauthorized. -/
theorem gate_error_collapse_witness :
    (require_session noFaults coldCacheWorld .missing 0).2 =
      .unauthorized ∧
    (require_session ⟨true, false, false, false⟩ coldCacheWorld
        (.valid sampleClaims) 0).2 = .serverError ∧
    (require_session ⟨false, true, false, false⟩ neverTouchedWorld
        (.valid sampleClaims) 0).2 = .serverError ∧
    (require_session noFaults ⟨⟨[staleSession], []⟩, [], []⟩
        (.valid sampleClaims) 0).2 = .unauthorized :=
  ⟨gate_error_collapse.1 noFaults coldCacheWorld 0,
   gate_error_collapse.2.2.1 ⟨true, false, false, false⟩ coldCacheWorld
     sampleClaims 0 rfl rfl,
   gate_error_collapse.2.2.2.2.2.2.1 ⟨false, true, false, false⟩
     neverTouchedWorld sampleClaims 0 staleSession rfl rfl rfl rfl rfl rfl
     (by decide),
   gate_error_collapse.2.2.2.2.2.2.2 noFaults ⟨⟨[staleSession], []⟩, [], []⟩
     sampleClaims 0 staleSession rfl rfl rfl rfl rfl rfl (by decide) rfl⟩
